import Mathlib

/-!
Shallow embedding of the grumpyadmin operator-console core (web UI of the
grumpyClaw repository): the chat message reconciler, the bounded event
timelines, the device-test capture lifecycle, the robot action dispatcher,
the request client, and the log query builder.  Each definition is a direct
translation of the corresponding TypeScript in `web/src`.
-/

namespace GrumpyAdmin

/-- A chat message as held in the ChatPage state
(`type Msg = { id; role; content; status }`). -/
structure Msg where
  id : String
  role : String
  content : String
  status : String
deriving DecidableEq, Repr

/-- Payload of a `chat.token` push event: `{ message_id, token }`. -/
structure TokenPayload where
  message_id : String
  token : String
deriving DecidableEq, Repr

/-- Payload of a `chat.final` push event: `{ message_id, content }`. -/
structure FinalPayload where
  message_id : String
  content : String
deriving DecidableEq, Repr

/-- The ChatPage `chat.token` handler:
`setMessages(prev => prev.map(m => m.id === payload.message_id ?
\x7b ...m, content: m.content + payload.token \x7d : m))`. -/
def applyChatToken (p : TokenPayload) (prev : List Msg) : List Msg :=
  prev.map (fun m =>
    if m.id = p.message_id then { m with content := m.content ++ p.token } else m)

/-- The ChatPage `chat.final` handler:
`setMessages(prev => prev.map(m => m.id === payload.message_id ?
\x7b ...m, content: payload.content, status: "final" \x7d : m))`. -/
def applyChatFinal (p : FinalPayload) (prev : List Msg) : List Msg :=
  prev.map (fun m =>
    if m.id = p.message_id then { m with content := p.content, status := "final" } else m)

theorem applyChatToken_of_absent (p : TokenPayload) (prev : List Msg)
    (h : ∀ m ∈ prev, m.id ≠ p.message_id) : applyChatToken p prev = prev := by
  unfold applyChatToken
  have hmap : prev.map (fun m =>
      if m.id = p.message_id then { m with content := m.content ++ p.token } else m) =
      prev.map id :=
    List.map_congr_left (fun m hm => by simp [h m hm])
  simpa using hmap

theorem applyChatFinal_of_absent (p : FinalPayload) (prev : List Msg)
    (h : ∀ m ∈ prev, m.id ≠ p.message_id) : applyChatFinal p prev = prev := by
  unfold applyChatFinal
  have hmap : prev.map (fun m =>
      if m.id = p.message_id then { m with content := p.content, status := "final" } else m) =
      prev.map id :=
    List.map_congr_left (fun m hm => by simp [h m hm])
  simpa using hmap

/-- C1 -- COUNTEREXAMPLE.  The claim says a `chat.token` delta whose
`message_id` is absent from the buffer makes the buffer grow by one entry.
On the code the handler is a `map` over the existing messages, so an absent
identifier matches nothing and the buffer length is unchanged: for the
one-entry buffer holding only message `m2`, applying the delta for `m1`
does not yield a buffer of length 2. -/
theorem chat_token_absent_no_append :
    (applyChatToken ⟨"m1", " there"⟩ [⟨"m2", "assistant", "ok", "final"⟩]).length ≠
      ([⟨"m2", "assistant", "ok", "final"⟩] : List Msg).length + 1 := by
  decide

/-- C1 -- AMENDED.  A patch-by-id event (`chat.token` delta or `chat.final`
finalization) whose carried message identifier is absent from the buffer is
a no-op: the buffer is returned unchanged (no append). -/
theorem chat_patch_absent_noop (tp : TokenPayload) (fp : FinalPayload)
    (prev : List Msg)
    (ht : ∀ m ∈ prev, m.id ≠ tp.message_id)
    (hf : ∀ m ∈ prev, m.id ≠ fp.message_id) :
    applyChatToken tp prev = prev ∧ applyChatFinal fp prev = prev :=
  ⟨applyChatToken_of_absent tp prev ht, applyChatFinal_of_absent fp prev hf⟩

/-- C1 -- WITNESS for `chat_patch_absent_noop` at a concrete buffer. -/
theorem chat_patch_absent_noop_witness :
    applyChatToken ⟨"m1", " there"⟩ [⟨"m2", "assistant", "ok", "final"⟩] =
      [⟨"m2", "assistant", "ok", "final"⟩] :=
  (chat_patch_absent_noop ⟨"m1", " there"⟩ ⟨"m1", "done"⟩
    [⟨"m2", "assistant", "ok", "final"⟩] (by decide) (by decide)).1

/-- C3 -- COUNTEREXAMPLE.  The claim says a patch-by-id event with the
identifier present changes only the targeted entry's content field.  The
`chat.final` handler also overwrites the status field: on the one-entry
buffer whose message `m1` already holds the final content `Hi`, applying
the final event changes the status column (streaming becomes final) even
though every content field is untouched. -/
theorem chat_final_changes_status :
    (applyChatFinal ⟨"m1", "Hi"⟩ [⟨"m1", "assistant", "Hi", "streaming"⟩]).map Msg.status ≠
      ([⟨"m1", "assistant", "Hi", "streaming"⟩] : List Msg).map Msg.status := by
  decide

/-- C3 -- AMENDED.  Patch-by-id events keep the entry count, every entry's
identifier and role, and every non-matching entry, exactly as they were; a
`chat.token` delta additionally keeps every status and rewrites only the
matching entry's content to `content ++ token`; a `chat.final` event
rewrites the matching entry's content to the final content and its status
to `"final"`.  In particular the snapshot holding one message `m1` with
content `Hi` followed by the delta `\x7b message_id: m1, token: " there" \x7d`
yields exactly one message with content `Hi there`. -/
theorem chat_patch_present_frame (tp : TokenPayload) (fp : FinalPayload)
    (prev : List Msg) :
    (applyChatToken tp prev).length = prev.length ∧
    (applyChatFinal fp prev).length = prev.length ∧
    (applyChatToken tp prev).map Msg.id = prev.map Msg.id ∧
    (applyChatToken tp prev).map Msg.role = prev.map Msg.role ∧
    (applyChatToken tp prev).map Msg.status = prev.map Msg.status ∧
    (applyChatFinal fp prev).map Msg.id = prev.map Msg.id ∧
    (applyChatFinal fp prev).map Msg.role = prev.map Msg.role ∧
    (∀ i : Nat, (applyChatToken tp prev)[i]? = (prev[i]?).map (fun m =>
      if m.id = tp.message_id then { m with content := m.content ++ tp.token } else m)) ∧
    (∀ i : Nat, (applyChatFinal fp prev)[i]? = (prev[i]?).map (fun m =>
      if m.id = fp.message_id then { m with content := fp.content, status := "final" } else m)) ∧
    applyChatToken ⟨"m1", " there"⟩ [⟨"m1", "user", "Hi", "streaming"⟩] =
      [⟨"m1", "user", "Hi there", "streaming"⟩] := by
  refine ⟨?_, ?_, ?_, ?_, ?_, ?_, ?_, ?_, ?_, by decide⟩
  · simp [applyChatToken]
  · simp [applyChatFinal]
  · simp only [applyChatToken, List.map_map]
    apply List.map_congr_left
    intro m _
    by_cases h : m.id = tp.message_id <;> simp [h]
  · simp only [applyChatToken, List.map_map]
    apply List.map_congr_left
    intro m _
    by_cases h : m.id = tp.message_id <;> simp [h]
  · simp only [applyChatToken, List.map_map]
    apply List.map_congr_left
    intro m _
    by_cases h : m.id = tp.message_id <;> simp [h]
  · simp only [applyChatFinal, List.map_map]
    apply List.map_congr_left
    intro m _
    by_cases h : m.id = fp.message_id <;> simp [h]
  · simp only [applyChatFinal, List.map_map]
    apply List.map_congr_left
    intro m _
    by_cases h : m.id = fp.message_id <;> simp [h]
  · intro i
    simp [applyChatToken]
  · intro i
    simp [applyChatFinal]

/-- C8 -- CONFIRMED.  Re-delivering a `chat.final` event that has already
been applied is idempotent: the second application leaves the buffer equal
to its previous state, and no application of a final event ever changes the
entry count (so a replayed final-content event never creates a new entry). -/
theorem chat_final_idempotent (fp : FinalPayload) (prev : List Msg) :
    applyChatFinal fp (applyChatFinal fp prev) = applyChatFinal fp prev ∧
    (applyChatFinal fp prev).length = prev.length := by
  constructor
  · simp only [applyChatFinal, List.map_map]
    apply List.map_congr_left
    intro m _
    by_cases h : m.id = fp.message_id <;> simp [h]
  · simp [applyChatFinal]

/-- The capped prepend used by every live event tail in the UI:
`[line, ...prev].slice(0, cap)` -- the new entry goes to the front and the
slice keeps the newest `cap` entries, evicting from the old end. -/
def prependCap (cap : Nat) (x : α) (prev : List α) : List α :=
  (x :: prev).take cap

/-- Delivery of a sequence of live events to a capped tail, oldest first. -/
def applyPrepends (cap : Nat) (xs : List α) (prev : List α) : List α :=
  xs.foldl (fun acc x => prependCap cap x acc) prev

/-- Payload of a `tool.event` push event: `\x7b tool_name, phase, message \x7d`. -/
structure ToolEventPayload where
  tool_name : String
  phase : String
  message : String
deriving DecidableEq, Repr

/-- Payload of a `robot.feedback` push event: `\x7b state, message \x7d`. -/
structure RobotFeedbackPayload where
  state : String
  message : String
deriving DecidableEq, Repr

/-- The line the ChatPage renders for a `tool.event`. -/
def toolEventLine (p : ToolEventPayload) : String :=
  p.phase ++ " " ++ p.tool_name ++ ": " ++ p.message

/-- The line the ChatPage renders for a `robot.feedback` event. -/
def robotFeedbackLine (p : RobotFeedbackPayload) : String :=
  "robot " ++ p.state ++ ": " ++ p.message

/-- ChatPage tool/robot timeline handler: prepend and `slice(0, 30)`. -/
def applyChatToolEvent (p : ToolEventPayload) (prev : List String) : List String :=
  prependCap 30 (toolEventLine p) prev

/-- ChatPage robot feedback handler: prepend and `slice(0, 30)`. -/
def applyChatRobotFeedback (p : RobotFeedbackPayload) (prev : List String) : List String :=
  prependCap 30 (robotFeedbackLine p) prev

/-- RuntimePage `runtime.heartbeat` handler: prepend and `slice(0, 80)`. -/
def applyRuntimeHeartbeat (payload : String) (prev : List String) : List String :=
  prependCap 80 ("runtime.heartbeat: " ++ payload) prev

/-- LogsPage `process.log` live tail handler: prepend and `slice(0, 100)`. -/
def applyProcessLog (data : String) (prev : List String) : List String :=
  prependCap 100 data prev

/-- Kind tag of a ConversationPage timeline entry. -/
inductive TLKind where
  | transcript
  | tool
  | status
deriving DecidableEq, Repr

/-- A ConversationPage timeline entry
(`type TimelineEntry = \x7b id; ts; kind; label; content \x7d`). -/
structure TimelineEntry where
  id : String
  ts : String
  kind : TLKind
  label : String
  content : String
deriving DecidableEq, Repr

/-- Payload of an `assistant.realtime.transcript` push event. -/
structure RealtimeTranscriptPayload where
  role : Option String
  content : Option String
  ts : Option String
deriving DecidableEq, Repr

/-- The entry the ConversationPage builds for a live transcript event,
given the generated `crypto.randomUUID()` and the current ISO time. -/
def transcriptEntry (freshId nowIso : String) (p : RealtimeTranscriptPayload) :
    TimelineEntry :=
  { id := freshId, ts := p.ts.getD nowIso, kind := .transcript,
    label := p.role.getD "transcript", content := p.content.getD "" }

/-- ConversationPage live transcript handler:
`setTimeline(prev => [...prev, entry])` -- an uncapped append. -/
def applyRealtimeTranscript (freshId nowIso : String)
    (p : RealtimeTranscriptPayload) (prev : List TimelineEntry) :
    List TimelineEntry :=
  prev ++ [transcriptEntry freshId nowIso p]

/-- The `limit` query parameter the ConversationPage passes when fetching
its history snapshot (`assistantRealtimeHistory(200)`); it bounds only the
fetched snapshot, not the live timeline. -/
def realtimeHistoryLimit : Nat := 200

theorem length_prependCap (cap : Nat) (x : α) (prev : List α) :
    (prependCap cap x prev).length = min (prev.length + 1) cap := by
  simp [prependCap, Nat.min_comm]

theorem length_applyPrepends (cap : Nat) (xs prev : List α)
    (h : prev.length ≤ cap) :
    (applyPrepends cap xs prev).length = min (prev.length + xs.length) cap := by
  induction xs generalizing prev with
  | nil => simp [applyPrepends]; omega
  | cons x xs ih =>
    have hstep : (prependCap cap x prev).length = min (prev.length + 1) cap :=
      length_prependCap cap x prev
    have hle : (prependCap cap x prev).length ≤ cap := by omega
    have := ih (prependCap cap x prev) hle
    simp only [applyPrepends, List.foldl_cons] at this ⊢
    rw [this, hstep]
    simp only [List.length_cons]
    omega

/-- C2 -- AMENDED.  For the capped live tails (cap 30 for the chat
tool/robot timeline, 80 for the runtime tail, 100 for the log tail), a tail
currently holding `N ≤ cap` entries holds exactly `min (N + appended) cap`
entries after any sequence of appended events, never exceeds the cap, and
an insertion into a full tail evicts exactly the oldest entry (the last one,
since the newest entry is kept at the front).  The realtime conversation
timeline is different: its 200 is only the snapshot fetch limit and its
live handler appends without a cap (see the counterexample). -/
theorem capped_tail_bound (cap : Nat) (xs prev : List α)
    (hc : 0 < cap) (h : prev.length ≤ cap) :
    (applyPrepends cap xs prev).length = min (prev.length + xs.length) cap ∧
    (applyPrepends cap xs prev).length ≤ cap ∧
    (prev.length = cap → ∀ x, prependCap cap x prev = x :: prev.dropLast) := by
  refine ⟨length_applyPrepends cap xs prev h, ?_, ?_⟩
  · rw [length_applyPrepends cap xs prev h]
    omega
  · intro hfull x
    simp only [prependCap]
    rcases cap with _ | c
    · omega
    · rw [List.take_succ_cons, List.dropLast_eq_take]
      have hc1 : c = prev.length - 1 := by omega
      rw [hc1]

/-- C2 -- WITNESS for `capped_tail_bound` at the chat tool timeline cap. -/
theorem capped_tail_bound_witness :
    (applyPrepends 30 ["a", "b"] ["x"]).length = min (1 + 2) 30 :=
  (capped_tail_bound 30 ["a", "b"] ["x"] (by decide) (by decide)).1

/-- C2 -- COUNTEREXAMPLE.  The realtime conversation timeline has no ring
buffer: starting from a timeline of 200 entries (the largest snapshot the
history fetch can seed), one live transcript event yields 201 rendered
entries, exceeding the claimed cap of 200. -/
theorem realtime_timeline_uncapped :
    (applyRealtimeTranscript "u1" "2026-01-01T00:00:00Z"
      ⟨some "user", some "hi", none⟩
      (List.replicate realtimeHistoryLimit
        ⟨"e0", "2025-12-31T00:00:00Z", .transcript, "user", "x"⟩)).length = 201 ∧
    ¬ (201 ≤ realtimeHistoryLimit) := by
  constructor
  · rw [applyRealtimeTranscript, List.length_append, List.length_replicate]
    rfl
  · decide

/-- The rendered order of the ConversationPage timeline:
`[...timeline].sort((a, b) => a.ts.localeCompare(b.ts))`.  JavaScript's
`Array.prototype.sort` is a stable sort and, on the ASCII ISO-8601
timestamp keys the page uses, `localeCompare` coincides with lexicographic
string comparison, so the code is modelled by the stable `List.mergeSort`
under the lexicographic order on the `ts` strings. -/
def orderedView (tl : List TimelineEntry) : List TimelineEntry :=
  tl.mergeSort (fun a b => decide (a.ts ≤ b.ts))

theorem tsle_trans (a b c : TimelineEntry)
    (hab : decide (a.ts ≤ b.ts) = true) (hbc : decide (b.ts ≤ c.ts) = true) :
    decide (a.ts ≤ c.ts) = true := by
  simp only [decide_eq_true_eq] at *
  exact le_trans hab hbc

theorem tsle_total (a b : TimelineEntry) :
    (decide (a.ts ≤ b.ts) || decide (b.ts ≤ a.ts)) = true := by
  simp only [Bool.or_eq_true, decide_eq_true_eq]
  exact le_total a.ts b.ts

/-- C7 -- CONFIRMED.  The rendered ConversationPage sequence is the
timeline buffer sorted by lexicographic comparison of the timestamp key:
it is sorted by `ts`, it is a permutation of the buffer (so it is the
buffer re-ordered, not insertion order), and the sort is stable -- any two
entries with equal timestamps that stand in insertion order in the buffer
stand in the same order in the rendered sequence. -/
theorem ordered_view_sorted_stable (tl : List TimelineEntry) :
    (orderedView tl).Pairwise (fun a b => a.ts ≤ b.ts) ∧
    (orderedView tl).Perm tl ∧
    (∀ a b : TimelineEntry, a.ts = b.ts → [a, b].Sublist tl →
      [a, b].Sublist (orderedView tl)) := by
  refine ⟨?_, List.mergeSort_perm tl _, ?_⟩
  · have h := List.sorted_mergeSort tsle_trans tsle_total tl
    simpa [orderedView] using h
  · intro a b hts hsub
    exact List.pair_sublist_mergeSort tsle_trans tsle_total
      (by simp [hts]) hsub

/-- C7 -- WITNESS for the stability clause of `ordered_view_sorted_stable`
at a concrete two-entry buffer with equal timestamps. -/
theorem ordered_view_sorted_stable_witness :
    [(⟨"a", "2026-01-01T10", .transcript, "user", "1"⟩ : TimelineEntry),
     ⟨"b", "2026-01-01T10", .tool, "t", "2"⟩].Sublist
      (orderedView [⟨"a", "2026-01-01T10", .transcript, "user", "1"⟩,
        ⟨"b", "2026-01-01T10", .tool, "t", "2"⟩]) :=
  (ordered_view_sorted_stable
    [⟨"a", "2026-01-01T10", .transcript, "user", "1"⟩,
     ⟨"b", "2026-01-01T10", .tool, "t", "2"⟩]).2.2
    ⟨"a", "2026-01-01T10", .transcript, "user", "1"⟩
    ⟨"b", "2026-01-01T10", .tool, "t", "2"⟩ rfl (List.Sublist.refl _)

/-- A hardware-related handle held by the DeviceTestPage microphone test:
the `getUserMedia` stream, the `AudioContext`, and the analyser node. -/
inductive MicHandle where
  | stream
  | audioCtx
  | analyser
deriving DecidableEq, Repr

/-- An observable step of the DeviceTestPage mic lifecycle, in the order
the code performs it. -/
inductive DevEvent where
  | cancelFrame
  | release (h : MicHandle)
  | acquire (h : MicHandle)
deriving DecidableEq, Repr

/-- The DeviceTestPage state relevant to the capture lifecycle.  The
`open*` fields instrument the underlying hardware: they count acquired
streams or contexts that have not been stopped or closed yet (acquisition
calls minus release calls), which the refs alone cannot express. -/
structure DeviceTestState where
  animationReq : Bool
  streamRef : Bool
  audioCtxRef : Bool
  analyserRef : Bool
  micLevel : Nat
  micActive : Bool
  micStatus : String
  cameraSrc : Bool
  cameraActive : Bool
  cameraStatus : String
  openMicStreams : Nat
  openAudioCtxs : Nat
  openCameraStreams : Nat
deriving DecidableEq, Repr

/-- The `stopMic` callback: cancel the animation frame if scheduled, stop
the stream tracks and drop the ref if held, close the audio context and
drop the ref if held, drop the analyser ref, zero the level, clear the
active flag and the status line. -/
def stopMicState (s : DeviceTestState) : DeviceTestState :=
  { s with
    animationReq := false
    streamRef := false
    audioCtxRef := false
    analyserRef := false
    micLevel := 0
    micActive := false
    micStatus := ""
    openMicStreams := s.openMicStreams - (if s.streamRef then 1 else 0)
    openAudioCtxs := s.openAudioCtxs - (if s.audioCtxRef then 1 else 0) }

/-- The sequence of lifecycle steps `stopMic` performs, in source order. -/
def stopMicTrace (s : DeviceTestState) : List DevEvent :=
  (if s.animationReq then [.cancelFrame] else []) ++
  (if s.streamRef then [.release .stream] else []) ++
  (if s.audioCtxRef then [.release .audioCtx] else []) ++
  [.release .analyser]

/-- The order in which `testMic` acquires its handles:
`getUserMedia`, then `new AudioContext()`, then `createAnalyser()`. -/
def micAcquisitionOrder : List MicHandle := [.stream, .audioCtx, .analyser]

/-- The success path of `testMic`: it first runs `stopMic()`, then
acquires the stream, the audio context and the analyser, starts the
sampling loop and marks the session active. -/
def testMicState (s : DeviceTestState) : DeviceTestState :=
  { stopMicState s with
    streamRef := true
    audioCtxRef := true
    analyserRef := true
    animationReq := true
    micActive := true
    micStatus := "Microphone active - speak to see level. Click Stop to release."
    openMicStreams := (stopMicState s).openMicStreams + 1
    openAudioCtxs := (stopMicState s).openAudioCtxs + 1 }

/-- The steps of the `testMic` success path: the full `stopMic` sequence
followed by the three acquisitions. -/
def testMicTrace (s : DeviceTestState) : List DevEvent :=
  stopMicTrace s ++ micAcquisitionOrder.map .acquire

/-- The `stopCamera` callback: stop the tracks of the video element's
stream if present and drop it, clear the active flag and the status. -/
def stopCameraState (s : DeviceTestState) : DeviceTestState :=
  { s with
    cameraSrc := false
    cameraActive := false
    cameraStatus := ""
    openCameraStreams := s.openCameraStreams - (if s.cameraSrc then 1 else 0) }

/-- The success path of `testCamera`: acquire a video stream and attach it
to the video element. -/
def testCameraState (s : DeviceTestState) : DeviceTestState :=
  { s with
    cameraSrc := true
    cameraActive := true
    cameraStatus := "Camera active - you should see yourself. Use Stop to release."
    openCameraStreams := s.openCameraStreams + 1 }

/-- The DeviceTestPage unmount cleanup: `useEffect(() => () => stopMic())`
runs only `stopMic`; no cleanup is registered for the camera. -/
def teardownState (s : DeviceTestState) : DeviceTestState :=
  stopMicState s

/-- The lifecycle steps performed on view teardown. -/
def teardownTrace (s : DeviceTestState) : List DevEvent :=
  stopMicTrace s

/-- The handles released by a sequence of lifecycle steps, in order. -/
def releasesOf (tr : List DevEvent) : List MicHandle :=
  tr.filterMap (fun e => match e with | .release h => some h | _ => none)

/-- The handles acquired by a sequence of lifecycle steps, in order. -/
def acquiresOf (tr : List DevEvent) : List MicHandle :=
  tr.filterMap (fun e => match e with | .acquire h => some h | _ => none)

/-- A DeviceTestState whose instrumentation counters agree with its refs:
no leaked hardware handle exists outside the refs. -/
def micWF (s : DeviceTestState) : Prop :=
  s.openMicStreams = (if s.streamRef then 1 else 0) ∧
  s.openAudioCtxs = (if s.audioCtxRef then 1 else 0)

/-- A fully active microphone session: every handle held, sampling loop
scheduled, session marked active. -/
def micFullyActive (s : DeviceTestState) : Prop :=
  s.micActive = true ∧ s.streamRef = true ∧ s.audioCtxRef = true ∧
  s.analyserRef = true ∧ s.animationReq = true

/-- A concrete DeviceTestState with both the microphone and the camera
fully active, used by the counterexamples and witnesses. -/
def bothActiveState : DeviceTestState :=
  { animationReq := true, streamRef := true, audioCtxRef := true,
    analyserRef := true, micLevel := 42, micActive := true,
    micStatus := "Microphone active - speak to see level. Click Stop to release.",
    cameraSrc := true, cameraActive := true,
    cameraStatus := "Camera active - you should see yourself. Use Stop to release.",
    openMicStreams := 1, openAudioCtxs := 1, openCameraStreams := 1 }

/-- C4 -- COUNTEREXAMPLE.  On the state where both the microphone and the
camera are active, (a) view teardown runs only `stopMic`, so the camera
stream stays attached and its hardware stream stays open -- the camera
session is not released without an explicit user stop; and (b) the mic
release sequence is `stream, audioCtx, analyser`, the acquisition order,
not the reverse-acquisition order the claim states. -/
theorem teardown_leaks_camera :
    (teardownState bothActiveState).cameraSrc = true ∧
    (teardownState bothActiveState).openCameraStreams = 1 ∧
    releasesOf (teardownTrace bothActiveState) = micAcquisitionOrder ∧
    micAcquisitionOrder ≠ micAcquisitionOrder.reverse := by
  refine ⟨rfl, rfl, by decide, by decide⟩

/-- C4 -- AMENDED.  For a microphone session, both an explicit stop and
the owning view's teardown (which needs no user stop action) cancel the
sampling loop, release every acquired mic handle -- stream tracks, audio
context, analyser -- in acquisition order (stream, context, analyser; not
reverse-acquisition order), and reset the published level to zero; under
the no-leak invariant no open mic stream or context remains.  A camera
session is released only by an explicit stop: teardown leaves the camera
stream exactly as it was. -/
theorem capture_release_on_stop_and_teardown (s : DeviceTestState)
    (hwf : micWF s) (hact : micFullyActive s) :
    (teardownState s).streamRef = false ∧
    (teardownState s).audioCtxRef = false ∧
    (teardownState s).analyserRef = false ∧
    (teardownState s).animationReq = false ∧
    (teardownState s).micLevel = 0 ∧
    (teardownState s).micActive = false ∧
    (teardownState s).openMicStreams = 0 ∧
    (teardownState s).openAudioCtxs = 0 ∧
    teardownState s = stopMicState s ∧
    releasesOf (teardownTrace s) = micAcquisitionOrder ∧
    (teardownState s).cameraSrc = s.cameraSrc ∧
    (teardownState s).openCameraStreams = s.openCameraStreams ∧
    (stopCameraState s).cameraSrc = false := by
  obtain ⟨hs, hc⟩ := hwf
  obtain ⟨h1, h2, h3, h4, h5⟩ := hact
  refine ⟨rfl, rfl, rfl, rfl, rfl, rfl, ?_, ?_, rfl, ?_, rfl, rfl, rfl⟩
  · simp [teardownState, stopMicState, hs, h2]
  · simp [teardownState, stopMicState, hc, h3]
  · simp [teardownTrace, stopMicTrace, releasesOf, micAcquisitionOrder, h2, h3, h5]

/-- C4 -- WITNESS for `capture_release_on_stop_and_teardown` at the
concrete state with both capabilities active. -/
theorem capture_release_on_stop_and_teardown_witness :
    (teardownState bothActiveState).openMicStreams = 0 :=
  (capture_release_on_stop_and_teardown bothActiveState
    ⟨rfl, rfl⟩ ⟨rfl, rfl, rfl, rfl, rfl⟩).2.2.2.2.2.2.1

/-- C6 -- CONFIRMED.  Starting a new microphone test while a session is
active (`testMic` begins with `stopMic()`) leaves exactly one active
session: afterwards the session is active, exactly one hardware stream and
one audio context are open, the no-leak invariant still holds, and the
step trace shows every handle of the prior session released -- release
calls equal the prior session's acquisition calls -- strictly before the
new acquisitions. -/
theorem test_mic_single_active (s : DeviceTestState)
    (hwf : micWF s) (hact : micFullyActive s) :
    (testMicState s).micActive = true ∧
    (testMicState s).openMicStreams = 1 ∧
    (testMicState s).openAudioCtxs = 1 ∧
    micWF (testMicState s) ∧
    testMicTrace s =
      [.cancelFrame, .release .stream, .release .audioCtx, .release .analyser,
       .acquire .stream, .acquire .audioCtx, .acquire .analyser] ∧
    releasesOf (stopMicTrace s) = micAcquisitionOrder ∧
    acquiresOf (testMicTrace s) = micAcquisitionOrder := by
  obtain ⟨hs, hc⟩ := hwf
  obtain ⟨h1, h2, h3, h4, h5⟩ := hact
  refine ⟨rfl, ?_, ?_, ⟨?_, ?_⟩, ?_, ?_, ?_⟩
  · simp [testMicState, stopMicState, hs, h2]
  · simp [testMicState, stopMicState, hc, h3]
  · simp [testMicState, stopMicState, hs, h2]
  · simp [testMicState, stopMicState, hc, h3]
  · simp [testMicTrace, stopMicTrace, micAcquisitionOrder, h2, h3, h5]
  · simp [stopMicTrace, releasesOf, micAcquisitionOrder, h2, h3, h5]
  · simp [testMicTrace, stopMicTrace, acquiresOf, micAcquisitionOrder, h2, h3, h5]

/-- C6 -- WITNESS for `test_mic_single_active` at the concrete state with
an active microphone session. -/
theorem test_mic_single_active_witness :
    testMicTrace bothActiveState =
      [.cancelFrame, .release .stream, .release .audioCtx, .release .analyser,
       .acquire .stream, .acquire .audioCtx, .acquire .analyser] :=
  (test_mic_single_active bothActiveState
    ⟨rfl, rfl⟩ ⟨rfl, rfl, rfl, rfl, rfl⟩).2.2.2.2.1

/-- A JSON value as it appears in the robot action payloads the RobotPage
serializes: strings, booleans, and the numeric look coordinates. -/
inductive JVal where
  | str (v : String)
  | boolean (v : Bool)
  | num (v : Rat)
deriving DecidableEq, Repr

/-- The `speak` payload: `run(\x7b action: "speak", text, confirm \x7d)` --
the confirm key is always serialized, carrying the toggle's value. -/
def speakPayload (text : String) (confirm : Bool) : List (String × JVal) :=
  [("action", .str "speak"), ("text", .str text), ("confirm", .boolean confirm)]

/-- The `look_at` payload:
`run(\x7b action: "look_at", ...look, confirm \x7d)` with the look state
`\x7b x, y, z, duration \x7d`. -/
def lookAtPayload (x y z duration : Rat) (confirm : Bool) : List (String × JVal) :=
  [("action", .str "look_at"), ("x", .num x), ("y", .num y), ("z", .num z),
   ("duration", .num duration), ("confirm", .boolean confirm)]

/-- A sequence of speak dispatches: each step reads the toggle state and
the text at its own dispatch time (`confirm` and `text` are read from the
current component state inside the click handler). -/
def dispatchSpeakSeq (steps : List (Bool × String)) : List (List (String × JVal)) :=
  steps.map (fun p => speakPayload p.2 p.1)

/-- C5 -- COUNTEREXAMPLE.  Dispatching `speak` with the confirm toggle off
does not omit the confirmation marker: the serialized payload carries the
key `confirm` with value `false` (the claim says the key is absent). -/
theorem speak_confirm_false_not_omitted :
    (speakPayload "Hello from grumpyadmin" false).lookup "confirm" =
      some (.boolean false) ∧
    (some (JVal.boolean false) : Option JVal) ≠ none := by
  refine ⟨by decide, by decide⟩

/-- C5 -- AMENDED.  Every `speak` and `look_at` payload carries a
`confirm` field equal to the toggle's state at dispatch time -- `false`
when the toggle is off, rather than omitted -- and in a sequence of
dispatches each payload's confirm value is exactly that dispatch's toggle
state, unaffected by the toggle's value at any earlier dispatch. -/
theorem dispatch_confirm_current_state (steps : List (Bool × String))
    (i : Nat) (c : Bool) (t : String) (x y z d : Rat)
    (h : steps[i]? = some (c, t)) :
    (dispatchSpeakSeq steps)[i]? = some (speakPayload t c) ∧
    (speakPayload t c).lookup "confirm" = some (.boolean c) ∧
    (lookAtPayload x y z d c).lookup "confirm" = some (.boolean c) := by
  refine ⟨?_, ?_, ?_⟩
  · simp [dispatchSpeakSeq, h]
  · simp [speakPayload, List.lookup]
  · simp [lookAtPayload, List.lookup]

/-- C5 -- WITNESS for `dispatch_confirm_current_state`: in the two-step
session whose first dispatch had the toggle on, the second dispatch with
the toggle off still produces `confirm = false`. -/
theorem dispatch_confirm_current_state_witness :
    (dispatchSpeakSeq [(true, "a"), (false, "b")])[1]? =
      some (speakPayload "b" false) :=
  (dispatch_confirm_current_state [(true, "a"), (false, "b")] 1 false "b"
    0 0 0 0 rfl).1

/-- A transport-level HTTP response: status code and raw body text. -/
structure HttpResponse where
  status : Nat
  body : String
deriving DecidableEq, Repr

/-- The `res.ok` predicate of the Fetch API: status in the range 200-299. -/
def resOk (r : HttpResponse) : Bool :=
  decide (200 ≤ r.status) && decide (r.status ≤ 299)

/-- The outcome of a `req` call: a deserialized value, a failure carrying
the raw response body (`throw new Error(await res.text())`), or the
deserialization failure `res.json()` raises on a malformed body. -/
inductive ReqError where
  | http (body : String)
  | decodeFailure
deriving DecidableEq, Repr

/-- The Request Client `req` helper.  The transport is the sequence of
responses `fetch` would return on successive attempts; `req` performs a
single fetch (attempt 0), throws the raw body if the response is not ok,
and otherwise deserializes the JSON body (the `decode` argument stands for
`res.json()` interpreted at the caller's expected type). -/
def req (decode : String → Option T) (transport : Nat → HttpResponse) :
    Except ReqError T :=
  let r := transport 0
  if resOk r then
    match decode r.body with
    | some v => .ok v
    | none => .error .decodeFailure
  else
    .error (.http r.body)

/-- C9 -- CONFIRMED.  A `req` call with any transport: its result depends
only on the first transport response (no retry -- two transports agreeing
on attempt 0 give identical results); a non-2xx response fails with the
raw response body as the error detail; a 2xx response returns the
deserialized JSON body. -/
theorem req_contract (decode : String → Option T)
    (transport transport' : Nat → HttpResponse)
    (h : transport 0 = transport' 0) :
    req decode transport = req decode transport' ∧
    (resOk (transport 0) = false →
      req decode transport = .error (.http (transport 0).body)) ∧
    (resOk (transport 0) = true →
      req decode transport =
        match decode (transport 0).body with
        | some v => .ok v
        | none => .error .decodeFailure) := by
  refine ⟨by simp [req, h], ?_, ?_⟩
  · intro hok
    simp [req, hok]
  · intro hok
    simp [req, hok]

/-- C9 -- WITNESS for `req_contract`: a 500 response with body `boom`
fails with exactly that body as the error detail. -/
theorem req_contract_witness :
    req (fun _ => some (0 : Nat)) (fun _ => ⟨500, "boom"⟩) =
      .error (.http "boom") :=
  (req_contract (fun _ => some (0 : Nat)) (fun _ => ⟨500, "boom"⟩)
    (fun _ => ⟨500, "boom"⟩) rfl).2.1 (by decide)

/-- The log filter facets accepted by `api.logs` (every field optional). -/
structure LogFilters where
  source : Option String
  level : Option String
  process_name : Option String
  event_type : Option String
  q : Option String
  limit : Option Nat
deriving DecidableEq, Repr

/-- One `params.set(name, s)` guarded by `if (filters?.name)`: a string
facet is added only when present and truthy (JavaScript treats the empty
string as falsy). -/
def strFacet (name : String) (v : Option String) : List (String × String) :=
  match v with
  | some s => if s = "" then [] else [(name, s)]
  | none => []

/-- The guarded `params.set("limit", String(limit))`: a numeric facet is
added only when present and truthy (zero is falsy). -/
def natFacet (name : String) (v : Option Nat) : List (String × String) :=
  match v with
  | some n => if n = 0 then [] else [(name, toString n)]
  | none => []

/-- The `URLSearchParams` built by `api.logs`, in source order. -/
def buildLogParams (f : Option LogFilters) : List (String × String) :=
  match f with
  | none => []
  | some f =>
    strFacet "source" f.source ++ strFacet "level" f.level ++
    strFacet "process_name" f.process_name ++ strFacet "event_type" f.event_type ++
    strFacet "q" f.q ++ natFacet "limit" f.limit

/-- An uppercase hexadecimal digit. -/
def hexDigit (n : Nat) : Char :=
  if n < 10 then Char.ofNat (48 + n) else Char.ofNat (55 + n)

/-- UTF-8 byte values of a Unicode codepoint. -/
def utf8Bytes (n : Nat) : List Nat :=
  if n < 128 then [n]
  else if n < 2048 then [192 + n / 64, 128 + n % 64]
  else if n < 65536 then [224 + n / 4096, 128 + n / 64 % 64, 128 + n % 64]
  else [240 + n / 262144, 128 + n / 4096 % 64, 128 + n / 64 % 64, 128 + n % 64]

/-- The application/x-www-form-urlencoded serialization of one byte, as
`URLSearchParams.toString` produces it: ASCII alphanumerics and `*-._` are
kept, space becomes `+`, everything else is percent-encoded. -/
def formEncodeByte (n : Nat) : String :=
  if (48 ≤ n ∧ n ≤ 57) ∨ (65 ≤ n ∧ n ≤ 90) ∨ (97 ≤ n ∧ n ≤ 122) ∨
      n = 42 ∨ n = 45 ∨ n = 46 ∨ n = 95 then
    String.singleton (Char.ofNat n)
  else if n = 32 then "+"
  else "%" ++ String.singleton (hexDigit (n / 16)) ++
    String.singleton (hexDigit (n % 16))

/-- The application/x-www-form-urlencoded serialization of a string. -/
def formEncode (s : String) : String :=
  String.join (s.toList.map (fun c => String.join ((utf8Bytes c.toNat).map formEncodeByte)))

/-- `URLSearchParams.toString()`: `name=value` pairs joined with `&`. -/
def encodeParams (ps : List (String × String)) : String :=
  String.intercalate "&" (ps.map (fun p => formEncode p.1 ++ "=" ++ formEncode p.2))

/-- The request path built by `api.logs`:
`params.size > 0` decides whether a query string is appended at all. -/
def logsPath (f : Option LogFilters) : String :=
  "/logs" ++
    (if (buildLogParams f).length > 0 then "?" ++ encodeParams (buildLogParams f) else "")

/-- A provided string facet after JavaScript truthiness: the empty string
is treated as absent. -/
def strTruthy (v : Option String) : Option String :=
  v.bind (fun s => if s = "" then none else some s)

/-- A provided numeric facet after JavaScript truthiness: zero is treated
as absent; a kept value is serialized with `String(n)`. -/
def natTruthy (v : Option Nat) : Option String :=
  v.bind (fun n => if n = 0 then none else some (toString n))

theorem lookup_append (k : String) (l1 l2 : List (String × String)) :
    List.lookup k (l1 ++ l2) =
      ((List.lookup k l1).orElse (fun _ => List.lookup k l2)) := by
  induction l1 with
  | nil => simp [List.lookup]
  | cons a l ih =>
    by_cases h : k == a.1
    · simp [List.lookup, h, Option.orElse]
    · simp [List.lookup, h, ih]

theorem lookup_strFacet_self (name : String) (v : Option String) :
    List.lookup name (strFacet name v) = strTruthy v := by
  rcases v with _ | s
  · simp [strFacet, strTruthy]
  · by_cases h : s = "" <;> simp [strFacet, strTruthy, h, List.lookup]

theorem lookup_strFacet_ne (k name : String) (v : Option String)
    (h : ¬ k = name) : List.lookup k (strFacet name v) = none := by
  have hbeq : (k == name) = false := beq_eq_false_iff_ne.mpr h
  rcases v with _ | s
  · simp [strFacet]
  · by_cases hs : s = "" <;> simp [strFacet, hs, List.lookup, hbeq]

theorem lookup_natFacet_self (name : String) (v : Option Nat) :
    List.lookup name (natFacet name v) = natTruthy v := by
  rcases v with _ | n
  · simp [natFacet, natTruthy]
  · by_cases h : n = 0 <;> simp [natFacet, natTruthy, h, List.lookup]

theorem lookup_natFacet_ne (k name : String) (v : Option Nat)
    (h : ¬ k = name) : List.lookup k (natFacet name v) = none := by
  have hbeq : (k == name) = false := beq_eq_false_iff_ne.mpr h
  rcases v with _ | n
  · simp [natFacet]
  · by_cases hn : n = 0 <;> simp [natFacet, hn, List.lookup, hbeq]

theorem orElse_none_right (o : Option α) : (o.orElse fun _ => none) = o := by
  cases o <;> rfl

theorem none_orElse_left (f : Unit → Option α) :
    (Option.orElse none f) = f () := rfl

/-- C10 -- COUNTEREXAMPLE.  A log query with the provided facet
`limit = 0` builds no `limit` query parameter at all (`if (filters?.limit)`
treats 0 as falsy) and the request URL has no query string, although the
claim says every provided facet appears as exactly that query parameter. -/
theorem logs_limit_zero_dropped :
    (buildLogParams (some ⟨none, none, none, none, none, some 0⟩)).lookup "limit" =
      none ∧
    logsPath (some ⟨none, none, none, none, none, some 0⟩) = "/logs" := by
  refine ⟨by decide, by decide⟩

/-- C10 -- AMENDED.  Each provided facet appears as exactly that query
parameter when its value is truthy in the JavaScript sense (a non-empty
string; a nonzero limit); a facet that is omitted, an empty string, or a
zero limit is absent from the query string; when no parameter survives the
URL is exactly `/logs` with no query string.  Filtering happens only at
the request boundary.  The scenario query with `level = ERROR` and
`process_name = runtime` builds exactly
`/logs?level=ERROR&process_name=runtime`. -/
theorem logs_query_facets (f : LogFilters) :
    (buildLogParams (some f)).lookup "source" = strTruthy f.source ∧
    (buildLogParams (some f)).lookup "level" = strTruthy f.level ∧
    (buildLogParams (some f)).lookup "process_name" = strTruthy f.process_name ∧
    (buildLogParams (some f)).lookup "event_type" = strTruthy f.event_type ∧
    (buildLogParams (some f)).lookup "q" = strTruthy f.q ∧
    (buildLogParams (some f)).lookup "limit" = natTruthy f.limit ∧
    buildLogParams none = [] ∧
    logsPath none = "/logs" ∧
    (buildLogParams (some f) = [] → logsPath (some f) = "/logs") ∧
    logsPath (some ⟨none, some "ERROR", some "runtime", none, none, none⟩) =
      "/logs?level=ERROR&process_name=runtime" := by
  refine ⟨?_, ?_, ?_, ?_, ?_, ?_, rfl, by decide, ?_, by decide⟩
  all_goals first
  | (intro hempty
     simp [logsPath, hempty])
  | simp [buildLogParams, lookup_append, lookup_strFacet_self, lookup_strFacet_ne,
      lookup_natFacet_self, lookup_natFacet_ne, orElse_none_right, none_orElse_left]

/-- C10 -- WITNESS for `logs_query_facets` at the scenario filters. -/
theorem logs_query_facets_witness :
    (buildLogParams (some ⟨none, some "ERROR", some "runtime", none, none, none⟩)).lookup
      "level" = strTruthy (some "ERROR") :=
  (logs_query_facets ⟨none, some "ERROR", some "runtime", none, none, none⟩).2.1

end GrumpyAdmin
